import Mathlib

/-!
# Verification of the Odonto-Sorriso virtual-receptionist service

Shallow embedding of `src/main.py` (FastAPI application): patient
registration, appointment booking, the 30-day slot-availability scan,
the LLM action dispatcher (`processar_chat_logic`) and the WhatsApp
webhook (`receber_mensagem_zapi`).

Modelling conventions:
* Instants are minutes since the start (UTC) of proleptic-Gregorian day 0.
  Day ordinals follow Python's `date.toordinal` (ordinal 1 = 0001-01-01,
  a Monday).  `America/Sao_Paulo` has observed a fixed UTC-3 offset with
  no daylight saving since 2019, so localization is the fixed shift of
  180 minutes; consequently `pytz` can raise no Ambiguous/NonExistent
  errors (and the source calls `localize` with its default `is_dst=False`,
  which never raises those anyway).
* The relational tables are modelled as lists; `fetch_one` on a filtered
  select is `List.find?`, inserts append.
* Seconds of a booked instant are dropped when storing (the only
  observations of stored instants are day-window membership and the
  local "HH:MM" label, both at minute granularity).
-/

set_option maxRecDepth 4000

namespace Odonto

/-- Calendar date (proleptic Gregorian), as carried by Python `datetime.date`. -/
structure Date where
  year : Nat
  month : Nat
  day : Nat
deriving DecidableEq, Repr

/-- Naive local date-time as produced by `datetime.fromisoformat` on a
string without a UTC offset. -/
structure NaiveDT where
  year : Nat
  month : Nat
  day : Nat
  hour : Nat
  minute : Nat
  second : Nat
deriving DecidableEq, Repr

/-- Gregorian leap-year rule (Python `calendar.isleap`). -/
def leapYear (y : Nat) : Bool :=
  (y % 4 == 0 && y % 100 != 0) || y % 400 == 0

/-- Length of a month, as enforced by the `datetime.date` constructor. -/
def daysInMonth (y m : Nat) : Nat :=
  match m with
  | 2 => if leapYear y then 29 else 28
  | 4 => 30
  | 6 => 30
  | 9 => 30
  | 11 => 30
  | _ => 31

/-- Days in year `y` that precede the first of month `m` (non-leap table
plus leap correction), as in CPython's `_days_before_month`. -/
def daysBeforeMonth (y m : Nat) : Nat :=
  (match m with
   | 1 => 0
   | 2 => 31
   | 3 => 59
   | 4 => 90
   | 5 => 120
   | 6 => 151
   | 7 => 181
   | 8 => 212
   | 9 => 243
   | 10 => 273
   | 11 => 304
   | _ => 334)
  + (if leapYear y ∧ 3 ≤ m then 1 else 0)

/-- Python `date.toordinal`: 0001-01-01 is ordinal 1. -/
def toOrdinalNat (d : Date) : Nat :=
  365 * (d.year - 1) + (d.year - 1) / 4 - (d.year - 1) / 100 + (d.year - 1) / 400
    + daysBeforeMonth d.year d.month + d.day

/-- `date.toordinal`, as an integer for arithmetic with day offsets. -/
def toOrdinal (d : Date) : Int := (toOrdinalNat d : Int)

/-- Inverse of `toOrdinal` (Python `date.fromordinal`); Howard Hinnant's
`civil_from_days`, shifted so that ordinal 1 is 0001-01-01. -/
def fromOrdinal (o : Int) : Date :=
  let z := o + 305
  let era := z.fdiv 146097
  let doe := z - era * 146097
  let yoe := (doe - doe.fdiv 1460 + doe.fdiv 36524 - doe.fdiv 146096).fdiv 365
  let y := yoe + era * 400
  let doy := doe - (365 * yoe + yoe.fdiv 4 - yoe.fdiv 100)
  let mp := (5 * doy + 2).fdiv 153
  let dd := doy - (153 * mp + 2).fdiv 5 + 1
  let mm := mp + (if mp < 10 then 3 else (-9 : Int))
  let yy := y + (if mm ≤ 2 then 1 else 0)
  ⟨yy.toNat, mm.toNat, dd.toNat⟩

/-- Python `date.weekday` on an ordinal: Monday = 0, ..., Sunday = 6. -/
def weekday (o : Int) : Int := (o - 1).emod 7

/-- Validity check performed by the `datetime.date` / `datetime.datetime`
constructors (`MINYEAR = 1`, `MAXYEAR = 9999`). -/
def ValidDate (y m d : Nat) : Prop :=
  1 ≤ y ∧ y ≤ 9999 ∧ 1 ≤ m ∧ m ≤ 12 ∧ 1 ≤ d ∧ d ≤ daysInMonth y m

instance (y m d : Nat) : Decidable (ValidDate y m d) := by
  unfold ValidDate; infer_instance

/-- Validity check of the `datetime.time` components. -/
def ValidTime (h mi s : Nat) : Prop := h ≤ 23 ∧ mi ≤ 59 ∧ s ≤ 59

instance (h mi s : Nat) : Decidable (ValidTime h mi s) := by
  unfold ValidTime; infer_instance

/-! ## String scanning primitives -/

/-- Split a character list at every occurrence of `sep` (the separator
structure `re` imposes on `strptime` patterns such as `%d/%m/%Y`:
separator-free groups joined by the literal separator). -/
def splitChars (sep : Char) : List Char → List (List Char)
  | [] => [[]]
  | c :: cs =>
    if c = sep then [] :: splitChars sep cs
    else
      match splitChars sep cs with
      | [] => [[c]]
      | g :: gs => (c :: g) :: gs

/-- Decimal value of a digit string (Python `int` on a digit group). -/
def valNat (cs : List Char) : Nat :=
  cs.foldl (fun a c => a * 10 + (c.toNat - 48)) 0

/-- All characters are ASCII decimal digits. -/
def allDigits (cs : List Char) : Bool := cs.all Char.isDigit

/-- Two-digit decimal value. -/
def dd2 (a b : Char) : Nat := (a.toNat - 48) * 10 + (b.toNat - 48)

/-- Four-digit decimal value. -/
def dd4 (a b c d : Char) : Nat :=
  ((a.toNat - 48) * 10 + (b.toNat - 48)) * 100 + (c.toNat - 48) * 10 + (d.toNat - 48)

/-! ## `datetime.strptime` models

`main.py` parses dates with `strptime(s, "%d/%m/%Y")`, `strptime(s, "%Y-%m-%d")`.
CPython compiles these to the anchored full-match regexes
`(3[01]|[12]\d|0[1-9]|[1-9]) / (1[0-2]|0[1-9]|[1-9]) / \d\d\d\d` (resp. with
`-` and the `%Y-%m-%d` order), i.e. day and month groups of one or two
digits within range, a year group of exactly four digits, and then the
`datetime` constructor validates the calendar date.  Since the groups are
digit-only, full-match against the pattern is equivalent to: splitting on
the separator yields exactly three all-digit groups of the right lengths
and ranges. -/

/-- `datetime.strptime(s, "%d/%m/%Y").date()`. -/
def strptimeDMY (s : String) : Option Date :=
  match splitChars '/' s.data with
  | [ds, ms, ys] =>
    if 1 ≤ ds.length ∧ ds.length ≤ 2 ∧ allDigits ds = true ∧ 1 ≤ valNat ds ∧ valNat ds ≤ 31
       ∧ 1 ≤ ms.length ∧ ms.length ≤ 2 ∧ allDigits ms = true ∧ 1 ≤ valNat ms ∧ valNat ms ≤ 12
       ∧ ys.length = 4 ∧ allDigits ys = true
       ∧ ValidDate (valNat ys) (valNat ms) (valNat ds)
    then some ⟨valNat ys, valNat ms, valNat ds⟩
    else none
  | _ => none

/-- `datetime.strptime(s, "%Y-%m-%d").date()`. -/
def strptimeYMD (s : String) : Option Date :=
  match splitChars '-' s.data with
  | [ys, ms, ds] =>
    if ys.length = 4 ∧ allDigits ys = true
       ∧ 1 ≤ ms.length ∧ ms.length ≤ 2 ∧ allDigits ms = true ∧ 1 ≤ valNat ms ∧ valNat ms ≤ 12
       ∧ 1 ≤ ds.length ∧ ds.length ≤ 2 ∧ allDigits ds = true ∧ 1 ≤ valNat ds ∧ valNat ds ≤ 31
       ∧ ValidDate (valNat ys) (valNat ms) (valNat ds)
    then some ⟨valNat ys, valNat ms, valNat ds⟩
    else none
  | _ => none

/-! ## `datetime.fromisoformat` model

Booking parses its timestamp with `datetime.fromisoformat`, whose
documented grammar accepts a date `YYYY-MM-DD` optionally followed by one
separator character (any character) and a time `HH[:MM[:SS[.fff[fff]]]]` —
the fractional part takes exactly three or six digits and becomes the
microsecond component, which is dropped here at the model's minute
granularity.  The parser also accepts a trailing UTC offset;
offset-suffixed strings produce an aware datetime on which `pytz`'s
`localize` raises `ValueError` — caught by the very same `except` clause
as a parse failure, so rejecting them at parse level is observationally
identical.  (CPython ≥ 3.11 additionally accepts further ISO-8601 forms,
e.g. the basic format without separators; the model follows the
documented grammar above, which every supported version accepts.) -/

/-- Time component `HH[:MM[:SS[.fff[fff]]]]` of `fromisoformat` (the
three- or six-digit fraction is validated and its microseconds
discarded). -/
def parseIsoTime : List Char → Option (Nat × Nat × Nat)
  | [h1, h2] =>
    if h1.isDigit = true ∧ h2.isDigit = true ∧ ValidTime (dd2 h1 h2) 0 0
    then some (dd2 h1 h2, 0, 0) else none
  | [h1, h2, ':', i1, i2] =>
    if h1.isDigit = true ∧ h2.isDigit = true ∧ i1.isDigit = true ∧ i2.isDigit = true
       ∧ ValidTime (dd2 h1 h2) (dd2 i1 i2) 0
    then some (dd2 h1 h2, dd2 i1 i2, 0) else none
  | [h1, h2, ':', i1, i2, ':', s1, s2] =>
    if h1.isDigit = true ∧ h2.isDigit = true ∧ i1.isDigit = true ∧ i2.isDigit = true
       ∧ s1.isDigit = true ∧ s2.isDigit = true
       ∧ ValidTime (dd2 h1 h2) (dd2 i1 i2) (dd2 s1 s2)
    then some (dd2 h1 h2, dd2 i1 i2, dd2 s1 s2) else none
  | [h1, h2, ':', i1, i2, ':', s1, s2, '.', f1, f2, f3] =>
    if h1.isDigit = true ∧ h2.isDigit = true ∧ i1.isDigit = true ∧ i2.isDigit = true
       ∧ s1.isDigit = true ∧ s2.isDigit = true
       ∧ f1.isDigit = true ∧ f2.isDigit = true ∧ f3.isDigit = true
       ∧ ValidTime (dd2 h1 h2) (dd2 i1 i2) (dd2 s1 s2)
    then some (dd2 h1 h2, dd2 i1 i2, dd2 s1 s2) else none
  | [h1, h2, ':', i1, i2, ':', s1, s2, '.', f1, f2, f3, f4, f5, f6] =>
    if h1.isDigit = true ∧ h2.isDigit = true ∧ i1.isDigit = true ∧ i2.isDigit = true
       ∧ s1.isDigit = true ∧ s2.isDigit = true
       ∧ f1.isDigit = true ∧ f2.isDigit = true ∧ f3.isDigit = true
       ∧ f4.isDigit = true ∧ f5.isDigit = true ∧ f6.isDigit = true
       ∧ ValidTime (dd2 h1 h2) (dd2 i1 i2) (dd2 s1 s2)
    then some (dd2 h1 h2, dd2 i1 i2, dd2 s1 s2) else none
  | _ => none

/-- `datetime.fromisoformat` restricted to naive results (see above). -/
def parseIso (s : String) : Option NaiveDT :=
  match s.data with
  | [y1, y2, y3, y4, c1, m1, m2, c2, d1, d2] =>
    if y1.isDigit = true ∧ y2.isDigit = true ∧ y3.isDigit = true ∧ y4.isDigit = true
       ∧ c1 = '-' ∧ m1.isDigit = true ∧ m2.isDigit = true ∧ c2 = '-'
       ∧ d1.isDigit = true ∧ d2.isDigit = true
       ∧ ValidDate (dd4 y1 y2 y3 y4) (dd2 m1 m2) (dd2 d1 d2)
    then some ⟨dd4 y1 y2 y3 y4, dd2 m1 m2, dd2 d1 d2, 0, 0, 0⟩
    else none
  | y1 :: y2 :: y3 :: y4 :: c1 :: m1 :: m2 :: c2 :: d1 :: d2 :: _ :: rest =>
    if y1.isDigit = true ∧ y2.isDigit = true ∧ y3.isDigit = true ∧ y4.isDigit = true
       ∧ c1 = '-' ∧ m1.isDigit = true ∧ m2.isDigit = true ∧ c2 = '-'
       ∧ d1.isDigit = true ∧ d2.isDigit = true
       ∧ ValidDate (dd4 y1 y2 y3 y4) (dd2 m1 m2) (dd2 d1 d2)
    then
      match parseIsoTime rest with
      | some (hh, mi, ss) => some ⟨dd4 y1 y2 y3 y4, dd2 m1 m2, dd2 d1 d2, hh, mi, ss⟩
      | none => none
    else none
  | _ => none

/-! ## Data model (tables of `main.py`)

The `pacientes` and `agendamentos` rows; UUID primary keys and the
patient foreign key of an appointment are elided (no claim observes
them). -/

/-- A `pacientes` row. -/
structure Patient where
  nome : String
  telefone : String
  dataNascimento : Option Date
deriving DecidableEq, Repr

/-- An `agendamentos` row.  `dataHora` is the stored timezone-aware
instant, in minutes UTC. -/
structure Appt where
  dataHora : Int
  procedimento : String
  status : String
deriving DecidableEq, Repr

/-- The two engine-owned tables. -/
structure ChatState where
  pacientes : List Patient
  agendamentos : List Appt
deriving DecidableEq, Repr

/-! ## Timezone arithmetic (America/Sao_Paulo = UTC-3, fixed) -/

/-- Minutes offset of the clinic zone behind UTC. -/
def spOffset : Int := 180

/-- UTC instant (minutes) of the start of local day `o` (ordinal):
`SAO_PAULO_TZ.localize(datetime.combine(d, time.min)).astimezone(utc)`. -/
def inicioDiaUtc (o : Int) : Int := (o - 1) * 1440 + spOffset

/-- UTC instant (minutes) of the last minute of local day `o`
(`datetime.max.time()` is 23:59:59.999999; at minute granularity the
window closes at local minute 1439 inclusive). -/
def fimDiaUtc (o : Int) : Int := (o - 1) * 1440 + 1439 + spOffset

/-- Local minutes-since-day-0 of a stored UTC instant
(`astimezone(SAO_PAULO_TZ)`). -/
def localOfUtc (m : Int) : Int := m - spOffset

/-- UTC storage instant of a naive clinic-local date-time
(`SAO_PAULO_TZ.localize(dt).astimezone(timezone.utc)`), minutes. -/
def localToUtcMin (dt : NaiveDT) : Int :=
  (toOrdinal ⟨dt.year, dt.month, dt.day⟩ - 1) * 1440 + dt.hour * 60 + dt.minute + spOffset

/-- Zero-padded two-digit decimal rendering. -/
def pad2 (n : Nat) : String := if n < 10 then "0" ++ toString n else toString n

/-- `strftime("%H:%M")` of a local instant (minutes). -/
def labelHM (lm : Int) : String :=
  let t := lm.emod 1440
  pad2 (t.fdiv 60).toNat ++ ":" ++ pad2 (t.emod 60).toNat

/-- `strftime("%d/%m/%Y")` of a day ordinal. -/
def fmtDMY (o : Int) : String :=
  let d := fromOrdinal o
  pad2 d.day ++ "/" ++ pad2 d.month ++ "/" ++ toString d.year

/-- `date.isoformat()` of a day ordinal. -/
def fmtISO (o : Int) : String :=
  let d := fromOrdinal o
  toString d.year ++ "-" ++ pad2 d.month ++ "-" ++ pad2 d.day

/-! ## Registration Engine — `cadastrar_paciente` (main.py 94-107)

`nome` arrives from `action_data.get("nome")` and may be `None`; in that
case the Python flow only fails at the `INSERT` (NOT NULL violation,
after the existence check and date parse), raised to the dispatcher's
generic handler.  The `excecao` outcome models that raised exception;
no row is inserted. -/

/-- Outcome of `cadastrar_paciente`; constructors carry the exact return
strings of the source (see `renderReg`). -/
inductive RegResult where
  /-- "Você já possui um cadastro conosco." -/
  | jaCadastrado
  /-- "Formato de data inválido. Peça para o usuário fornecer no formato DD/MM/AAAA." -/
  | formatoInvalido
  /-- "Ótimo, {first}! Seu cadastro foi realizado. ..." -/
  | sucesso (nome : String)
  /-- exception escaping the engine (NOT NULL violation on `nome = None`) -/
  | excecao
deriving DecidableEq, Repr

/-- The date-of-birth parse of `cadastrar_paciente`: `strptime` with
`"%d/%m/%Y"`, and on `ValueError` a second attempt with `"%Y-%m-%d"`. -/
def parseDataNascimento (s : String) : Option Date :=
  match strptimeDMY s with
  | some d => some d
  | none => strptimeYMD s

/-- `cadastrar_paciente(telefone, nome, data_nascimento_str)`. -/
def cadastrar_paciente (pacientes : List Patient) (telefone : String)
    (nome : Option String) (dataNascimentoStr : Option String) :
    RegResult × List Patient :=
  match pacientes.find? (fun p => p.telefone == telefone) with
  | some _ => (.jaCadastrado, pacientes)
  | none =>
    let dn : Option (Option Date) :=
      match dataNascimentoStr with
      | none => some none
      | some s =>
        match parseDataNascimento s with
        | some d => some (some d)
        | none => none
    match dn with
    | none => (.formatoInvalido, pacientes)
    | some dn =>
      match nome with
      | none => (.excecao, pacientes)
      | some n => (.sucesso n, pacientes ++ [⟨n, telefone, dn⟩])

/-- Python `nome.split(' ')[0]` (first token of the full name). -/
def firstToken (s : String) : String :=
  ((s.splitOn " ").headD "")

/-- The exact reply string of each `RegResult` (the `excecao` case is the
dispatcher's generic handler text). -/
def renderReg : RegResult → String
  | .jaCadastrado => "Você já possui um cadastro conosco."
  | .formatoInvalido =>
    "Formato de data inválido. Peça para o usuário fornecer no formato DD/MM/AAAA."
  | .sucesso nome =>
    "Ótimo, " ++ firstToken nome ++
      "! Seu cadastro foi realizado. Agora já podemos agendar sua consulta. Qual procedimento você gostaria?"
  | .excecao => "Ocorreu um erro interno ao processar sua solicitação. Tente novamente."

/-! ## Booking Engine — `agendar_consulta` (main.py 160-176)

`data_hora_str` and `procedimento` come from `.get(...)` and may be
`None`: `fromisoformat(None)` raises `TypeError` (not caught by the
inner `except`), and a `None` procedure violates NOT NULL at the
`INSERT`; both bubble to the dispatcher handler — outcome `excecao`,
nothing inserted. -/

/-- Outcome of `agendar_consulta` (exact strings in `renderBook`). -/
inductive BookResult where
  /-- "Não encontrei seu cadastro. Por favor, informe seu nome completo para começarmos." -/
  | naoEncontrado
  /-- "Formato de data e hora inválido ou ambíguo. Use AAAA-MM-DDTHH:MM:SS." -/
  | formatoInvalido
  /-- "Perfeito, {first}! Seu agendamento para {proc} no dia {dd/mm/yyyy às hh:mm} foi confirmado." -/
  | confirmado (nome procedimento : String) (dt : NaiveDT)
  /-- exception escaping the engine -/
  | excecao
deriving DecidableEq, Repr

/-- `agendar_consulta(telefone, data_hora_str, procedimento)`. -/
def agendar_consulta (pacientes : List Patient) (agendamentos : List Appt)
    (telefone : String) (dataHoraStr : Option String) (procedimento : Option String) :
    BookResult × List Appt :=
  match pacientes.find? (fun p => p.telefone == telefone) with
  | none => (.naoEncontrado, agendamentos)
  | some pac =>
    match dataHoraStr with
    | none => (.excecao, agendamentos)
    | some s =>
      match parseIso s with
      | none => (.formatoInvalido, agendamentos)
      | some dt =>
        match procedimento with
        | none => (.excecao, agendamentos)
        | some proc =>
          (.confirmado pac.nome proc dt,
           agendamentos ++ [⟨localToUtcMin dt, proc, "Agendado"⟩])

/-- The exact reply string of each `BookResult`. -/
def renderBook : BookResult → String
  | .naoEncontrado =>
    "Não encontrei seu cadastro. Por favor, informe seu nome completo para começarmos."
  | .formatoInvalido =>
    "Formato de data e hora inválido ou ambíguo. Use AAAA-MM-DDTHH:MM:SS."
  | .confirmado nome proc dt =>
    "Perfeito, " ++ firstToken nome ++ "! Seu agendamento para " ++ proc ++ " no dia " ++
      fmtDMY (toOrdinal ⟨dt.year, dt.month, dt.day⟩) ++ " às " ++
      pad2 dt.hour ++ ":" ++ pad2 dt.minute ++ " foi confirmado."
  | .excecao => "Ocorreu um erro interno ao processar sua solicitação. Tente novamente."

/-! ## Availability Engine — `consultar_horarios_disponiveis` (main.py 110-158) -/

/-- The fixed daily template
`[f"{h:02d}:00" for h in range(9, 18) if h != 12]`. -/
def horariosBase : List String :=
  ((List.range 18).filter (fun h => decide (9 ≤ h) && decide (h ≠ 12))).map
    (fun h => pad2 h ++ ":00")

/-- Appointments fetched for local day `o`: stored instant within the
UTC-converted local day window and `status != 'Cancelado'`. -/
def agendamentosDoDia (ags : List Appt) (o : Int) : List Appt :=
  ags.filter (fun a =>
    decide (inicioDiaUtc o ≤ a.dataHora) && decide (a.dataHora ≤ fimDiaUtc o)
      && (a.status != "Cancelado"))

/-- `{a['data_hora'].astimezone(SAO_PAULO_TZ).strftime("%H:%M") for a in ...}`. -/
def horariosOcupados (ags : List Appt) (o : Int) : List String :=
  (agendamentosDoDia ags o).map (fun a => labelHM (localOfUtc a.dataHora))

/-- `[h for h in horarios_base if h not in horarios_ocupados]`. -/
def horariosDisponiveis (ags : List Appt) (o : Int) : List String :=
  horariosBase.filter (fun h => !(horariosOcupados ags o).contains h)

/-- Result of the availability search; constructors carry the exact
return strings of the source (see `renderAvail`). -/
inductive AvailResult where
  /-- "Não é possível agendar em datas passadas. A data de hoje é {dd/mm/yyyy}." -/
  | dataPassada
  /-- "Formato de data inválido. Use AAAA-MM-DD." -/
  | formatoInvalido
  /-- "Encontrei horários para o dia {dd/mm/yyyy}: {slots}." -/
  | encontrado (dia : Int) (horarios : List String)
  /-- "Não encontrei horários disponíveis nos próximos 30 dias. ..." -/
  | semHorarios
deriving DecidableEq, Repr

/-- The `for i in range(30)` scan, by remaining fuel: skip weekends
(`weekday() >= 5`), return the first day whose free-slot list is
non-empty, else fall through to the no-availability message. -/
def buscaLoop (ags : List Appt) (o : Int) : Nat → AvailResult
  | 0 => .semHorarios
  | n + 1 =>
    if 5 ≤ weekday o then buscaLoop ags (o + 1) n
    else if (horariosDisponiveis ags o).isEmpty then buscaLoop ags (o + 1) n
    else .encontrado o (horariosDisponiveis ags o)

/-- Number of `fetch_all` storage queries the scan issues (one per
non-weekend candidate day, until it returns). -/
def loopQueries (ags : List Appt) (o : Int) : Nat → Nat
  | 0 => 0
  | n + 1 =>
    if 5 ≤ weekday o then loopQueries ags (o + 1) n
    else if (horariosDisponiveis ags o).isEmpty then loopQueries ags (o + 1) n + 1
    else 1

/-- `consultar_horarios_disponiveis(dia_preferencial_str)`; `hoje` is
`datetime.now(SAO_PAULO_TZ).date()` as an ordinal.  Second component:
storage queries performed.  The source guards the parse block with the
truthiness test `if dia_preferencial_str:`, so the empty string — like
`None` — leaves the start date at today and runs the scan. -/
def consultar_horarios_disponiveis (ags : List Appt) (hoje : Int)
    (diaPreferencialStr : Option String) : AvailResult × Nat :=
  match diaPreferencialStr with
  | none => (buscaLoop ags hoje 30, loopQueries ags hoje 30)
  | some s =>
    if s = "" then (buscaLoop ags hoje 30, loopQueries ags hoje 30)
    else
      match strptimeYMD s with
      | none => (.formatoInvalido, 0)
      | some d =>
        if toOrdinal d < hoje then (.dataPassada, 0)
        else (buscaLoop ags (toOrdinal d) 30, loopQueries ags (toOrdinal d) 30)

/-- Python `", ".join(slots)`. -/
def joinComma : List String → String
  | [] => ""
  | [s] => s
  | s :: rest => s ++ ", " ++ joinComma rest

/-- The exact reply string of each `AvailResult` (`hoje` appears in the
past-date message). -/
def renderAvail (hoje : Int) : AvailResult → String
  | .dataPassada =>
    "Não é possível agendar em datas passadas. A data de hoje é " ++ fmtDMY hoje ++ "."
  | .formatoInvalido => "Formato de data inválido. Use AAAA-MM-DD."
  | .encontrado dia horarios =>
    "Encontrei horários para o dia " ++ fmtDMY dia ++ ": " ++ joinComma horarios ++ "."
  | .semHorarios =>
    "Não encontrei horários disponíveis nos próximos 30 dias. Por favor, entre em contato para verificarmos outras possibilidades."

/-! ## Conversation Orchestrator — `processar_chat_logic` (main.py 237-301) -/

/-- A transcript entry (a role/content dict).  The first-contact
assistant entry carries `content = None` plus a `tool_calls` payload;
the payload is not observed by any claim and is elided, leaving
`content = none`. -/
structure Msg where
  role : String
  content : Option String
deriving DecidableEq, Repr

/-- The `data` object of the LLM's decision; every field is fetched with
`.get(...)` in the source and may be absent. -/
structure IAData where
  texto : Option String
  nome : Option String
  data_nascimento : Option String
  data_hora : Option String
  procedimento : Option String
  dia : Option String
deriving DecidableEq, Repr

/-- Empty `data` object. -/
def IAData.vazio : IAData := ⟨none, none, none, none, none, none⟩

/-- The LLM's structured decision (`{"action": ..., "data": {...}}`);
`chamar_ia` always yields a dict, falling back to a `responder` decision
on upstream failure, so the external call is modelled as a total
function `List Msg → IAResp` supplied as a parameter. -/
structure IAResp where
  action : Option String
  data : IAData
deriving DecidableEq, Repr

/-- Stands for `json.dumps(resposta_ia)` stored into the transcript; the
exact JSON text is inspected by no claim, only the entry's presence. -/
def encodeIA (r : IAResp) : String :=
  "action=" ++ r.action.getD "null" ++ ";texto=" ++ r.data.texto.getD "null"

/-- Stands for the literal system-prompt block with `{current_date}`
substituted (`prompt_sistema`); its text is inspected by no claim. -/
def promptSistema (hojeIso : String) : String :=
  "PROMPT-SISTEMA data=" ++ hojeIso

/-- `consultar_paciente_por_telefone(telefone)` (main.py 89-92). -/
def consultar_paciente_por_telefone (pacientes : List Patient) (telefone : String) : String :=
  match pacientes.find? (fun p => p.telefone == telefone) with
  | some p => "Paciente encontrado: " ++ p.nome ++ "."
  | none => "Paciente não cadastrado."

/-- The model-input list: system prompt, then — only when the recovered
history is empty — the injected tool-call/tool-result pair with the
patient status, then the prior history and the new user turn
(`messages` plus the two `insert`s of main.py 259-275). -/
def montarMensagens (pacientes : List Patient) (hoje : Int)
    (telefone mensagem : String) (historico : List Msg) : List Msg :=
  [⟨"system", some (promptSistema (fmtISO hoje))⟩]
    ++ (if historico.isEmpty then
          [⟨"assistant", none⟩,
           ⟨"tool", some (consultar_paciente_por_telefone pacientes telefone)⟩]
        else [])
    ++ historico ++ [⟨"user", some mensagem⟩]

/-- The dispatcher's reply, one constructor per branch of the action
router (exact strings in `renderReply`). -/
inductive Reply where
  /-- `data.get("texto", "Não consegui processar sua solicitação.")` -/
  | texto (s : String)
  | cadastro (r : RegResult)
  | agendamento (r : BookResult)
  | disponibilidade (r : AvailResult)
  /-- "Não entendi a ação solicitada. Por favor, reformule." -/
  | naoEntendi
  /-- "Ocorreu um erro interno ao processar sua solicitação. Tente novamente." -/
  | erroInterno
deriving DecidableEq, Repr

/-- The exact user-visible string of a `Reply`. -/
def renderReply (hoje : Int) : Reply → String
  | .texto s => s
  | .cadastro r => renderReg r
  | .agendamento r => renderBook r
  | .disponibilidade r => renderAvail hoje r
  | .naoEntendi => "Não entendi a ação solicitada. Por favor, reformule."
  | .erroInterno => "Ocorreu um erro interno ao processar sua solicitação. Tente novamente."

/-- The action router (main.py 286-299).  An engine exception is caught
by the surrounding `except` and replaced by the internal-error reply;
the engines return their tables unchanged in that case, so the state
update is uniform. -/
def despachar (st : ChatState) (hoje : Int) (telefone : String) (resp : IAResp) :
    Reply × ChatState :=
  if resp.action == some "responder" then
    (.texto (resp.data.texto.getD "Não consegui processar sua solicitação."), st)
  else if resp.action == some "cadastrar_paciente" then
    let r := cadastrar_paciente st.pacientes telefone resp.data.nome resp.data.data_nascimento
    (if r.1 = .excecao then .erroInterno else .cadastro r.1, ⟨r.2, st.agendamentos⟩)
  else if resp.action == some "agendar_consulta" then
    let r := agendar_consulta st.pacientes st.agendamentos telefone
               resp.data.data_hora resp.data.procedimento
    (if r.1 = .excecao then .erroInterno else .agendamento r.1, ⟨st.pacientes, r.2⟩)
  else if resp.action == some "consultar_horarios_disponiveis" then
    (.disponibilidade (consultar_horarios_disponiveis st.agendamentos hoje resp.data.dia).1, st)
  else (.naoEntendi, st)

/-- Result of `processar_chat_logic`: the reply, the history list to be
persisted by the caller (`messages` plus the assistant decision entry),
and the updated tables. -/
structure ChatOut where
  reply : Reply
  history : List Msg
  state : ChatState
deriving DecidableEq, Repr

/-- `processar_chat_logic(dados)`; `hoje` is today's clinic-local date
(ordinal) and `ia` the external LLM. -/
def processar_chat_logic (st : ChatState) (hoje : Int) (ia : List Msg → IAResp)
    (telefone mensagem : String) (historico : List Msg) : ChatOut :=
  let messages := montarMensagens st.pacientes hoje telefone mensagem historico
  let resp := ia messages
  let r := despachar st hoje telefone resp
  ⟨r.1, messages ++ [⟨"assistant", some (encodeIA resp)⟩], r.2⟩

/-! ## Inbound Webhook Adapter — `receber_mensagem_zapi` (main.py 319-402) -/

/-- A `historico_conversas` row.  `historico` is stored as JSON text in
the table; it is modelled in decoded form (`json.dumps`/`json.loads`
round-trip).  Timestamps are minutes UTC. -/
structure ConvRecord where
  telefone : String
  historico : List Msg
  lastUpdatedAt : Int
  snoozedUntil : Option Int
deriving DecidableEq, Repr

/-- The Z-API payload fields the handler reads. -/
structure Payload where
  phone : Option String
  fromMe : Bool
  textMessage : Option String
  audioUrl : Option String
deriving DecidableEq, Repr

/-- Content extraction (main.py 343-351): a truthy `text.message`, else
audio download (`audioOk` = the download returned truthy bytes) and
transcription (`transcricao` = the speech-to-text result, `none` on
failure; a falsy transcription falls back to the error marker). -/
def extrairConteudo (p : Payload) (audioOk : Bool) (transcricao : Option String) :
    Option String :=
  match p.textMessage with
  | some t =>
    if t = "" then extrairAudio p audioOk transcricao else some t
  | none => extrairAudio p audioOk transcricao
where
  extrairAudio (p : Payload) (audioOk : Bool) (transcricao : Option String) :
      Option String :=
    match p.audioUrl with
    | some u =>
      if u = "" then none
      else if audioOk then
        some (match transcricao with
              | some s => if s = "" then "[Erro na transcrição]" else s
              | none => "[Erro na transcrição]")
      else some "[Erro no download do áudio]"
    | none => none

/-- `historico_para_salvar[-20:]` — the most recent `n` entries. -/
def lastN (n : Nat) (xs : List Msg) : List Msg := xs.drop (xs.length - n)

/-- The history loaded for the turn (main.py 360-368): the stored
transcript when the record exists and was updated less than 6 hours
(360 minutes) ago, else empty. -/
def recuperarHistorico (rdb : Option ConvRecord) (now : Int) : List Msg :=
  match rdb with
  | some r => if now - r.lastUpdatedAt < 360 then r.historico else []
  | none => []

/-- `historico_para_salvar` just before truncation: the orchestrator's
history list with the final assistant reply appended (main.py 376-378). -/
def transcriptCompleto (hoje : Int) (saida : ChatOut) : List Msg :=
  saida.history ++ [⟨"assistant", some (renderReply hoje saida.reply)⟩]

/-- `resultado_db["snoozed_until"] and resultado_db["snoozed_until"] > now`. -/
def snoozeAtivo (rdb : Option ConvRecord) (now : Int) : Bool :=
  match rdb with
  | some r =>
    match r.snoozedUntil with
    | some t => decide (now < t)
    | none => false
  | none => false

/-- Observable outcome of one webhook invocation: the three tables, the
outbound Z-API send (if any), and whether the orchestrator ran.  The
HTTP status is 200 in every modelled case. -/
structure WebhookResult where
  conversas : List ConvRecord
  state : ChatState
  outbound : Option (String × String)
  orchestratorRan : Bool
deriving DecidableEq, Repr

/-- `receber_mensagem_zapi(request)`.  `now` is `datetime.now(utc)` in
minutes, `hoje` today's clinic-local ordinal, `ia` the external LLM,
`audioOk`/`transcricao` the external audio collaborators. -/
def receber_mensagem_zapi (conversas : List ConvRecord) (st : ChatState)
    (now hoje : Int) (ia : List Msg → IAResp) (audioOk : Bool)
    (transcricao : Option String) (payload : Payload) : WebhookResult :=
  match payload.phone with
  | none => ⟨conversas, st, none, false⟩
  | some tel =>
    if tel = "" then ⟨conversas, st, none, false⟩
    else if payload.fromMe then
      -- manual-takeover: refresh the snooze deadline if a record exists
      match conversas.find? (fun r => r.telefone == tel) with
      | some _ =>
        ⟨conversas.map (fun r =>
           if r.telefone == tel then ⟨r.telefone, r.historico, r.lastUpdatedAt, some (now + 30)⟩
           else r),
         st, none, false⟩
      | none => ⟨conversas, st, none, false⟩
    else
      match extrairConteudo payload audioOk transcricao with
      | none => ⟨conversas, st, none, false⟩
      | some conteudo =>
        let rdb := conversas.find? (fun r => r.telefone == tel)
        if snoozeAtivo rdb now then
          -- snoozed: drop the message
          ⟨conversas, st, none, false⟩
        else
          let saida := processar_chat_logic st hoje ia tel conteudo (recuperarHistorico rdb now)
          let mensagemResposta := renderReply hoje saida.reply
          let salvar := lastN 20 (transcriptCompleto hoje saida)
          let conversas' :=
            match rdb with
            | some _ =>
              conversas.map (fun r =>
                if r.telefone == tel then ⟨r.telefone, salvar, now, none⟩ else r)
            | none => conversas ++ [⟨tel, salvar, now, none⟩]
          ⟨conversas', saida.state, some (tel, mensagemResposta), true⟩

/-! ## Spec-side strict formats

Definitions written from the specification's words (not the source), for
comparison with the source-derived parsers: a string "matching the
format `DD/MM/YYYY`" (resp. `YYYY-MM-DD`, `YYYY-MM-DDTHH:MM:SS`) is one
in the exact fixed-width digit pattern, denoting a valid calendar
date(-time). -/

/-- Spec-side: strict `DD/MM/YYYY` match and the date it denotes. -/
def specParseDMY (s : String) : Option Date :=
  match splitChars '/' s.data with
  | [ds, ms, ys] =>
    if ds.length = 2 ∧ allDigits ds = true
       ∧ ms.length = 2 ∧ allDigits ms = true
       ∧ ys.length = 4 ∧ allDigits ys = true
       ∧ ValidDate (valNat ys) (valNat ms) (valNat ds)
    then some ⟨valNat ys, valNat ms, valNat ds⟩
    else none
  | _ => none

/-- Spec-side: strict `YYYY-MM-DD` match and the date it denotes. -/
def specParseYMD (s : String) : Option Date :=
  match splitChars '-' s.data with
  | [ys, ms, ds] =>
    if ys.length = 4 ∧ allDigits ys = true
       ∧ ms.length = 2 ∧ allDigits ms = true
       ∧ ds.length = 2 ∧ allDigits ds = true
       ∧ ValidDate (valNat ys) (valNat ms) (valNat ds)
    then some ⟨valNat ys, valNat ms, valNat ds⟩
    else none
  | _ => none

/-- Spec-side: strict `YYYY-MM-DDTHH:MM:SS` match and the naive
date-time it denotes. -/
def specParseYmdHms (s : String) : Option NaiveDT :=
  match s.data with
  | [y1, y2, y3, y4, '-', m1, m2, '-', d1, d2, 'T', h1, h2, ':', i1, i2, ':', e1, e2] =>
    if y1.isDigit = true ∧ y2.isDigit = true ∧ y3.isDigit = true ∧ y4.isDigit = true
       ∧ m1.isDigit = true ∧ m2.isDigit = true ∧ d1.isDigit = true ∧ d2.isDigit = true
       ∧ h1.isDigit = true ∧ h2.isDigit = true ∧ i1.isDigit = true ∧ i2.isDigit = true
       ∧ e1.isDigit = true ∧ e2.isDigit = true
       ∧ ValidDate (dd4 y1 y2 y3 y4) (dd2 m1 m2) (dd2 d1 d2)
       ∧ ValidTime (dd2 h1 h2) (dd2 i1 i2) (dd2 e1 e2)
    then some ⟨dd4 y1 y2 y3 y4, dd2 m1 m2, dd2 d1 d2, dd2 h1 h2, dd2 i1 i2, dd2 e1 e2⟩
    else none
  | _ => none

/-- Spec-side: the transcript composition claimed for persistence — the
prior turns with the new user turn and the assistant turn appended, then
truncated to the most recent 20 entries. -/
def specTranscript (prior : List Msg) (userText replyText : String) : List Msg :=
  lastN 20 (prior ++ [⟨"user", some userText⟩, ⟨"assistant", some replyText⟩])

/-! Sanity checks of the calendar arithmetic (2025-03-10 is a Monday,
matching the scenario used by the specification). -/

theorem toOrdinal_20250310 : toOrdinal ⟨2025, 3, 10⟩ = 739320 := by decide

theorem weekday_20250310 : weekday (toOrdinal ⟨2025, 3, 10⟩) = 0 := by decide

theorem fromOrdinal_toOrdinal_20250310 :
    fromOrdinal (toOrdinal ⟨2025, 3, 10⟩) = ⟨2025, 3, 10⟩ := by decide

theorem strptimeYMD_example : strptimeYMD "2025-03-10" = some ⟨2025, 3, 10⟩ := by decide

theorem strptimeDMY_example : strptimeDMY "10/03/2025" = some ⟨2025, 3, 10⟩ := by decide

theorem parseIso_example :
    parseIso "2025-03-10T09:00:00" = some ⟨2025, 3, 10, 9, 0, 0⟩ := by decide

theorem parseIso_dateOnly_example :
    parseIso "2025-03-10" = some ⟨2025, 3, 10, 0, 0, 0⟩ := by decide

theorem parseIso_fraction_example :
    parseIso "2025-03-10T09:00:00.123456" = some ⟨2025, 3, 10, 9, 0, 0⟩ := by decide

theorem parseIso_fraction3_example :
    parseIso "2025-03-10T09:00:00.123" = some ⟨2025, 3, 10, 9, 0, 0⟩ := by decide

theorem horariosBase_eval :
    horariosBase = ["09:00", "10:00", "11:00", "13:00", "14:00", "15:00", "16:00", "17:00"] := by
  decide

/-- Spec scenario: empty ledger, `findAvailability("2025-03-10")` (a
Monday) returns that day with all 8 template slots. -/
theorem avail_scenario_empty :
    consultar_horarios_disponiveis [] 739320 (some "2025-03-10") =
      (.encontrado 739320 ["09:00", "10:00", "11:00", "13:00", "14:00", "15:00", "16:00", "17:00"], 1) := by
  decide

/-- Spec scenario: one Scheduled row at 2025-03-10T09:00 local
(stored as UTC minutes); that day comes back with 7 slots, "09:00"
excluded. -/
theorem avail_scenario_occupied :
    consultar_horarios_disponiveis [⟨(739320 - 1) * 1440 + 540 + 180, "Limpeza", "Agendado"⟩]
        739320 (some "2025-03-10") =
      (.encontrado 739320 ["10:00", "11:00", "13:00", "14:00", "15:00", "16:00", "17:00"], 1) := by
  decide

/-! ## Claim C1 — the availability scan -/

/-- Day `e` yields nothing in the scan's eyes: local weekend, or the
template minus that day's occupied labels is empty. -/
def diaSemVaga (ags : List Appt) (e : Int) : Prop :=
  5 ≤ weekday e ∨ horariosDisponiveis ags e = []

/-- The property claimed of a scan started at `d0`: a returned day lies
within the 30-day horizon, is no Saturday/Sunday (weekday < 5), carries
exactly the template minus that day's occupied labels (non-empty), and
every earlier day of the horizon offered nothing; the no-availability
result means every day of the horizon offered nothing. -/
def availClaimOk (ags : List Appt) (d0 : Int) (r : AvailResult) : Prop :=
  (∀ d slots, r = .encontrado d slots →
     d0 ≤ d ∧ d < d0 + 30 ∧ weekday d < 5 ∧
     slots = horariosDisponiveis ags d ∧ slots ≠ [] ∧
     ∀ e, d0 ≤ e → e < d → diaSemVaga ags e) ∧
  (r = .semHorarios → ∀ e, d0 ≤ e → e < d0 + 30 → diaSemVaga ags e)

/-- Characterization of `buscaLoop`, by induction on the fuel. -/
theorem buscaLoop_spec (ags : List Appt) :
    ∀ (fuel : Nat) (o : Int),
      (∀ d slots, buscaLoop ags o fuel = .encontrado d slots →
        o ≤ d ∧ d < o + fuel ∧ weekday d < 5 ∧
        slots = horariosDisponiveis ags d ∧ slots ≠ [] ∧
        ∀ e, o ≤ e → e < d → diaSemVaga ags e) ∧
      (buscaLoop ags o fuel = .semHorarios →
        ∀ e, o ≤ e → e < o + fuel → diaSemVaga ags e) := by
  intro fuel
  induction fuel with
  | zero =>
    intro o
    constructor
    · intro d slots h
      simp [buscaLoop] at h
    · intro _ e h1 h2
      omega
  | succ n ih =>
    intro o
    by_cases hw : 5 ≤ weekday o
    · have hstep : buscaLoop ags o (n + 1) = buscaLoop ags (o + 1) n := by
        simp [buscaLoop, hw]
      constructor
      · intro d slots h
        rw [hstep] at h
        obtain ⟨h1, h2, h3, h4, h5, h6⟩ := (ih (o + 1)).1 d slots h
        refine ⟨by omega, by omega, h3, h4, h5, ?_⟩
        intro e he1 he2
        rcases eq_or_lt_of_le he1 with he | he
        · exact Or.inl (he ▸ hw)
        · exact h6 e (by omega) he2
      · intro h e he1 he2
        rw [hstep] at h
        rcases eq_or_lt_of_le he1 with he | he
        · exact Or.inl (he ▸ hw)
        · exact (ih (o + 1)).2 h e (by omega) (by omega)
    · by_cases hemp : (horariosDisponiveis ags o).isEmpty
      · have hstep : buscaLoop ags o (n + 1) = buscaLoop ags (o + 1) n := by
          simp [buscaLoop, hw, hemp]
        have hnil : horariosDisponiveis ags o = [] := by
          simpa [List.isEmpty_iff] using hemp
        constructor
        · intro d slots h
          rw [hstep] at h
          obtain ⟨h1, h2, h3, h4, h5, h6⟩ := (ih (o + 1)).1 d slots h
          refine ⟨by omega, by omega, h3, h4, h5, ?_⟩
          intro e he1 he2
          rcases eq_or_lt_of_le he1 with he | he
          · exact Or.inr (he ▸ hnil)
          · exact h6 e (by omega) he2
        · intro h e he1 he2
          rw [hstep] at h
          rcases eq_or_lt_of_le he1 with he | he
          · exact Or.inr (he ▸ hnil)
          · exact (ih (o + 1)).2 h e (by omega) (by omega)
      · have hstep : buscaLoop ags o (n + 1) = .encontrado o (horariosDisponiveis ags o) := by
          simp [buscaLoop, hw, hemp]
        constructor
        · intro d slots h
          rw [hstep] at h
          injection h with hd hs
          subst hd
          subst hs
          refine ⟨le_refl o, by omega, by omega, rfl, ?_, ?_⟩
          · intro hnil
            simp [hnil] at hemp
          · intro e he1 he2
            omega
        · intro h
          rw [hstep] at h
          simp at h

/-- C1: for every call with a valid non-past start date (today when no
date is supplied, or a parsed `YYYY-MM-DD` date not before today), the
scan covers at most 30 days from the start, never selects a Saturday or
Sunday, returns the first scanned day whose template-minus-occupied slot
list is non-empty together with exactly that list, and reports
no-availability only when no scanned day had a free slot. -/
theorem C1_availability_scan (ags : List Appt) (hoje d0 : Int)
    (diaStr : Option String)
    (hstart : (diaStr = none ∧ d0 = hoje) ∨
      ∃ s d, diaStr = some s ∧ strptimeYMD s = some d ∧ d0 = toOrdinal d ∧ hoje ≤ d0) :
    availClaimOk ags d0 (consultar_horarios_disponiveis ags hoje diaStr).1 := by
  have hmain : (consultar_horarios_disponiveis ags hoje diaStr).1 = buscaLoop ags d0 30 := by
    rcases hstart with ⟨hnone, hd⟩ | ⟨s, d, hsome, hparse, hd, hle⟩
    · subst hnone
      subst hd
      rfl
    · subst hsome
      subst hd
      have hne : ¬ s = "" := by
        intro h
        rw [h, show strptimeYMD "" = none from by decide] at hparse
        exact Option.noConfusion hparse
      simp only [consultar_horarios_disponiveis]
      rw [if_neg hne]
      simp only [hparse]
      rw [if_neg (by omega)]
  rw [hmain]
  exact ⟨(buscaLoop_spec ags 30 d0).1, (buscaLoop_spec ags 30 d0).2⟩

/-- C1 witness: the 2025-03-10 scenario (valid, non-past relative to a
"today" of 2025-03-10) satisfies the scan characterization. -/
theorem C1_availability_scan_witness :
    availClaimOk [] 739320 (consultar_horarios_disponiveis [] 739320 (some "2025-03-10")).1 :=
  C1_availability_scan [] 739320 739320 (some "2025-03-10")
    (Or.inr ⟨"2025-03-10", ⟨2025, 3, 10⟩, rfl, by decide, by decide, by decide⟩)

/-! ## Claim C4 — availability input rejection -/

/-- Characters of an appended string. -/
theorem dataAppend (s t : String) : (s ++ t).data = s.data ++ t.data := by
  cases s
  cases t
  rfl

/-- The first character survives appending on the right. -/
theorem headAppend (s t : String) (c : Char) (h : s.data.head? = some c) :
    (s ++ t).data.head? = some c := by
  rw [dataAppend]
  cases hs : s.data with
  | nil => rw [hs] at h; cases h
  | cons x xs =>
    rw [hs] at h
    simpa using h

/-- The past-date and bad-format messages differ (the former starts with
'N', the latter with 'F'), whatever today's date is. -/
theorem renderAvailDistinct (hoje : Int) :
    renderAvail hoje .dataPassada ≠ renderAvail hoje .formatoInvalido := by
  intro h
  have h1 : (renderAvail hoje .dataPassada).data.head? = some 'N' := by
    show ((("Não é possível agendar em datas passadas. A data de hoje é " ++ fmtDMY hoje)
      ++ ".")).data.head? = some 'N'
    apply headAppend
    apply headAppend
    decide
  rw [h] at h1
  simp only [renderAvail] at h1
  exact absurd h1 (by decide)

/-- C4 (amended): a supplied date string that parses to a date strictly
before today yields the past-date result with zero storage queries; a
*non-empty* string that does not parse yields the bad-format result with
zero storage queries; the two user-facing messages differ; and the empty
string — falsy in the source's `if dia_preferencial_str:` test — is
treated exactly as an absent date, running the scan from today. -/
theorem C4_avail_rejections (ags : List Appt) (hoje : Int) :
    (∀ s d, strptimeYMD s = some d → toOrdinal d < hoje →
       consultar_horarios_disponiveis ags hoje (some s) = (.dataPassada, 0)) ∧
    (∀ s, ¬ s = "" → strptimeYMD s = none →
       consultar_horarios_disponiveis ags hoje (some s) = (.formatoInvalido, 0)) ∧
    (∀ h : Int, renderAvail h .dataPassada ≠ renderAvail h .formatoInvalido) ∧
    consultar_horarios_disponiveis ags hoje (some "")
      = consultar_horarios_disponiveis ags hoje none := by
  refine ⟨?_, ?_, renderAvailDistinct, ?_⟩
  · intro s d hp hlt
    have hne : ¬ s = "" := by
      intro h
      rw [h, show strptimeYMD "" = none from by decide] at hp
      exact Option.noConfusion hp
    simp only [consultar_horarios_disponiveis]
    rw [if_neg hne]
    simp [hp, if_pos hlt]
  · intro s hne hp
    simp only [consultar_horarios_disponiveis]
    rw [if_neg hne]
    simp [hp]
  · rfl

/-- C4 witness: a past date (today being 2025-03-10) and a malformed
non-empty string, each rejected without touching storage. -/
theorem C4_avail_rejections_witness :
    consultar_horarios_disponiveis [] 739320 (some "2020-01-01") = (.dataPassada, 0) ∧
    consultar_horarios_disponiveis [] 739320 (some "10/03/2025") = (.formatoInvalido, 0) :=
  ⟨(C4_avail_rejections [] 739320).1 "2020-01-01" ⟨2020, 1, 1⟩ (by decide) (by decide),
   (C4_avail_rejections [] 739320).2.1 "10/03/2025" (by decide) (by decide)⟩

/-- C4 counterexample: the empty string does not parse as a date, yet
the code returns no format error and does query storage — the
`if dia_preferencial_str:` truthiness test routes it to the scan from
today, which here (a Monday, empty ledger) answers with the first day's
slots after one storage query. -/
theorem C4_counterexample :
    strptimeYMD "" = none ∧
    (consultar_horarios_disponiveis [] 739320 (some "")).1 ≠ .formatoInvalido ∧
    (consultar_horarios_disponiveis [] 739320 (some "")).2 = 1 :=
  ⟨by decide, by decide, by decide⟩

/-! ## Claim C5 — booking with an unknown phone -/

/-- C5: when no patient row matches the phone, booking returns the
patient-not-found outcome — whose message tells the caller to register
first — and the appointment table is unchanged. -/
theorem C5_booking_unknown_phone (pacientes : List Patient) (ags : List Appt)
    (telefone : String) (dataHoraStr procedimento : Option String)
    (h : pacientes.find? (fun p => p.telefone == telefone) = none) :
    agendar_consulta pacientes ags telefone dataHoraStr procedimento = (.naoEncontrado, ags) ∧
    renderBook .naoEncontrado =
      "Não encontrei seu cadastro. Por favor, informe seu nome completo para começarmos." := by
  constructor
  · simp [agendar_consulta, h]
  · rfl

/-- C5 witness: the spec scenario
`bookAppointment(unknownPhone, "2025-03-10T09:00:00", "Limpeza")`. -/
theorem C5_booking_unknown_phone_witness :
    agendar_consulta [] [] "5511999990000" (some "2025-03-10T09:00:00") (some "Limpeza")
      = (.naoEncontrado, []) ∧
    renderBook .naoEncontrado =
      "Não encontrei seu cadastro. Por favor, informe seu nome completo para começarmos." :=
  C5_booking_unknown_phone [] [] "5511999990000" (some "2025-03-10T09:00:00") (some "Limpeza") rfl

/-! ## Claim C6 — double registration is a no-op -/

/-- C6: with a phone not yet registered (and arguments the first call
accepts — a present name and an absent or parseable date of birth),
registering and then registering again with the same arguments returns
the already-registered outcome on the second call, changes no state on
the second call, and leaves exactly one patient row for that phone. -/
theorem C6_register_idempotent (pacientes : List Patient) (telefone nome : String)
    (dob : Option String)
    (hnew : pacientes.find? (fun p => p.telefone == telefone) = none)
    (hdob : ∀ s, dob = some s → parseDataNascimento s ≠ none) :
    (cadastrar_paciente (cadastrar_paciente pacientes telefone (some nome) dob).2
        telefone (some nome) dob).1 = .jaCadastrado ∧
    (cadastrar_paciente (cadastrar_paciente pacientes telefone (some nome) dob).2
        telefone (some nome) dob).2
      = (cadastrar_paciente pacientes telefone (some nome) dob).2 ∧
    ((cadastrar_paciente pacientes telefone (some nome) dob).2.filter
        (fun p => p.telefone == telefone)).length = 1 := by
  have hdb1 : ∃ dn, cadastrar_paciente pacientes telefone (some nome) dob
      = (.sucesso nome, pacientes ++ [⟨nome, telefone, dn⟩]) := by
    cases dob with
    | none => exact ⟨none, by simp [cadastrar_paciente, hnew]⟩
    | some s =>
      cases hp : parseDataNascimento s with
      | none => exact absurd hp (hdob s rfl)
      | some d => exact ⟨some d, by simp [cadastrar_paciente, hnew, hp]⟩
  obtain ⟨dn, hdb1⟩ := hdb1
  rw [hdb1]
  have hfind2 : (pacientes ++ [(⟨nome, telefone, dn⟩ : Patient)]).find?
      (fun p => p.telefone == telefone) = some ⟨nome, telefone, dn⟩ := by
    rw [List.find?_append, hnew]
    simp
  have hfilter : pacientes.filter (fun p => p.telefone == telefone) = [] := by
    rw [List.filter_eq_nil_iff]
    intro a ha
    exact List.find?_eq_none.mp hnew a ha
  refine ⟨?_, ?_, ?_⟩
  · simp [cadastrar_paciente, hfind2]
  · simp [cadastrar_paciente, hfind2]
  · simp [List.filter_append, hfilter]

/-- C6 witness: fresh registration of "Maria Silva" followed by a
repeat call. -/
theorem C6_register_idempotent_witness :
    (cadastrar_paciente (cadastrar_paciente [] "5511999990000" (some "Maria Silva")
        (some "10/03/1990")).2 "5511999990000" (some "Maria Silva") (some "10/03/1990")).1
      = .jaCadastrado ∧
    (cadastrar_paciente (cadastrar_paciente [] "5511999990000" (some "Maria Silva")
        (some "10/03/1990")).2 "5511999990000" (some "Maria Silva") (some "10/03/1990")).2
      = (cadastrar_paciente [] "5511999990000" (some "Maria Silva") (some "10/03/1990")).2 ∧
    ((cadastrar_paciente [] "5511999990000" (some "Maria Silva") (some "10/03/1990")).2.filter
        (fun p => p.telefone == "5511999990000")).length = 1 :=
  C6_register_idempotent [] "5511999990000" "Maria Silva" (some "10/03/1990") rfl
    (by intro s hs; injection hs with hs; subst hs; decide)

/-! ## Claim C7 — date-of-birth formats -/

/-- Reassembly of `splitChars` groups with the separator. -/
def joinSep (sep : Char) : List (List Char) → List Char
  | [] => []
  | [g] => g
  | g :: gs => g ++ sep :: joinSep sep gs

theorem splitChars_ne_nil (sep : Char) (cs : List Char) : splitChars sep cs ≠ [] := by
  cases cs with
  | nil => simp [splitChars]
  | cons x xs =>
    unfold splitChars
    by_cases hx : x = sep
    · simp [hx]
    · simp only [hx, if_false]
      cases h : splitChars sep xs <;> simp

/-- The groups of `splitChars` reassemble to the original list and none
contains the separator. -/
theorem splitChars_join (sep : Char) (cs : List Char) :
    joinSep sep (splitChars sep cs) = cs ∧ ∀ g ∈ splitChars sep cs, sep ∉ g := by
  induction cs with
  | nil => simp [splitChars, joinSep]
  | cons x xs ih =>
    obtain ⟨ih1, ih2⟩ := ih
    by_cases hx : x = sep
    · subst hx
      rw [show splitChars x (x :: xs) = [] :: splitChars x xs from by simp [splitChars]]
      cases h : splitChars x xs with
      | nil => exact absurd h (splitChars_ne_nil x xs)
      | cons g gs =>
        rw [h] at ih1 ih2
        refine ⟨by simp [joinSep, ih1], ?_⟩
        intro g' hg'
        rcases List.mem_cons.mp hg' with h' | h'
        · subst h'
          simp
        · exact ih2 g' h'
    · rw [show splitChars sep (x :: xs)
          = (match splitChars sep xs with
             | [] => [[x]]
             | g :: gs => (x :: g) :: gs) from by simp [splitChars, hx]]
      cases h : splitChars sep xs with
      | nil => exact absurd h (splitChars_ne_nil sep xs)
      | cons g gs =>
        rw [h] at ih1 ih2
        constructor
        · cases gs with
          | nil =>
            simp only [joinSep] at ih1 ⊢
            rw [ih1]
          | cons g' gs' =>
            simp only [joinSep, List.cons_append] at ih1 ⊢
            rw [ih1]
        · intro g' hg'
          rcases List.mem_cons.mp hg' with h' | h'
          · subst h'
            intro hmem
            rcases List.mem_cons.mp hmem with h'' | h''
            · exact hx h''.symm
            · exact ih2 g (List.mem_cons_self g gs) h''
          · exact ih2 g' (List.mem_cons_of_mem g h')

/-- A list without the separator splits into a single group. -/
theorem splitChars_of_not_mem (sep : Char) (cs : List Char) (h : sep ∉ cs) :
    splitChars sep cs = [cs] := by
  induction cs with
  | nil => rfl
  | cons x xs ih =>
    have hx : ¬ x = sep := by
      intro he
      exact h (he ▸ List.mem_cons_self x xs)
    rw [show splitChars sep (x :: xs)
        = (match splitChars sep xs with
           | [] => [[x]]
           | g :: gs => (x :: g) :: gs) from by simp [splitChars, hx]]
    rw [ih (fun hm => h (List.mem_cons_of_mem x hm))]

theorem daysInMonth_le_31 (y m : Nat) : daysInMonth y m ≤ 31 := by
  unfold daysInMonth
  split
  · split <;> omega
  all_goals omega

/-- A character with `isDigit = false` is in no all-digit group. -/
theorem not_mem_of_allDigits (c : Char) (hc : c.isDigit = false) (cs : List Char)
    (h : allDigits cs = true) : c ∉ cs := by
  intro hm
  have hd := List.all_eq_true.mp h c hm
  rw [hc] at hd
  cases hd

/-- A strict `DD/MM/YYYY` match is accepted by the `%d/%m/%Y` parse with
the same denoted date. -/
theorem strptimeDMY_of_spec (s : String) (d : Date) (h : specParseDMY s = some d) :
    strptimeDMY s = some d := by
  unfold specParseDMY at h
  split at h
  · rename_i ds ms ys heq
    split at h
    · rename_i hC
      obtain ⟨hds1, hdsall, hms1, hmsall, hys1, hysall, hvd⟩ := hC
      have hvd' := hvd
      simp only [ValidDate] at hvd'
      obtain ⟨hy1, hy2, hm1, hm2, hd1, hd2⟩ := hvd'
      injection h with h
      subst h
      unfold strptimeDMY
      rw [heq]
      exact if_pos ⟨by omega, by omega, hdsall, hd1,
        le_trans hd2 (daysInMonth_le_31 _ _), by omega, by omega, hmsall, hm1, hm2,
        hys1, hysall, hvd⟩
    · simp at h
  · simp at h

/-- A strict `YYYY-MM-DD` match is accepted by the `%Y-%m-%d` parse with
the same denoted date. -/
theorem strptimeYMD_of_spec (s : String) (d : Date) (h : specParseYMD s = some d) :
    strptimeYMD s = some d := by
  unfold specParseYMD at h
  split at h
  · rename_i ys ms ds heq
    split at h
    · rename_i hC
      obtain ⟨hys1, hysall, hms1, hmsall, hds1, hdsall, hvd⟩ := hC
      have hvd' := hvd
      simp only [ValidDate] at hvd'
      obtain ⟨hy1, hy2, hm1, hm2, hd1, hd2⟩ := hvd'
      injection h with h
      subst h
      unfold strptimeYMD
      rw [heq]
      exact if_pos ⟨hys1, hysall, by omega, by omega, hmsall, hm1, hm2,
        by omega, by omega, hdsall, hd1, le_trans hd2 (daysInMonth_le_31 _ _), hvd⟩
    · simp at h
  · simp at h

/-- A strict `YYYY-MM-DD` string contains no `'/'`, so the `%d/%m/%Y`
attempt fails on it. -/
theorem strptimeDMY_of_specYMD_none (s : String) (d : Date)
    (h : specParseYMD s = some d) : strptimeDMY s = none := by
  unfold specParseYMD at h
  split at h
  · rename_i ys ms ds heq
    split at h
    · rename_i hC
      obtain ⟨hys1, hysall, hms1, hmsall, hds1, hdsall, hvd⟩ := hC
      have hjoin := (splitChars_join '-' s.data).1
      rw [heq] at hjoin
      simp only [joinSep] at hjoin
      have hnot : '/' ∉ s.data := by
        rw [← hjoin]
        intro hmem
        simp only [List.mem_append, List.mem_cons] at hmem
        rcases hmem with hmem | hmem | hmem
        · exact not_mem_of_allDigits '/' (by decide) ys hysall hmem
        · cases hmem
        · rcases hmem with hmem | hmem | hmem
          · exact not_mem_of_allDigits '/' (by decide) ms hmsall hmem
          · cases hmem
          · exact not_mem_of_allDigits '/' (by decide) ds hdsall hmem
      have hsplit := splitChars_of_not_mem '/' s.data hnot
      unfold strptimeDMY
      rw [hsplit]
    · simp at h
  · simp at h

/-- C7 (amended): for a not-yet-registered phone, a supplied
date-of-birth string is parsed by the `%d/%m/%Y` attempt and then the
`%Y-%m-%d` attempt — in that order, as `parseDataNascimento` is defined;
the invalid-format outcome (with no row inserted) occurs exactly when
*both strptime attempts* reject; when one accepts, the inserted row
carries the parsed date; and every string strictly matching
`DD/MM/YYYY` or `YYYY-MM-DD` is parsed to exactly the calendar date it
denotes.  (The strptime patterns also accept single-digit day/month, so
acceptance is wider than the two strict formats — see the
counterexample.) -/
theorem C7_dob_parsing (pacientes : List Patient) (telefone nome : String)
    (hnew : pacientes.find? (fun p => p.telefone == telefone) = none) :
    (∀ s, parseDataNascimento s = none →
       cadastrar_paciente pacientes telefone (some nome) (some s)
         = (.formatoInvalido, pacientes)) ∧
    (∀ s d, parseDataNascimento s = some d →
       cadastrar_paciente pacientes telefone (some nome) (some s)
         = (.sucesso nome, pacientes ++ [⟨nome, telefone, some d⟩])) ∧
    (∀ s d, specParseDMY s = some d → parseDataNascimento s = some d) ∧
    (∀ s d, specParseYMD s = some d → parseDataNascimento s = some d) := by
  refine ⟨?_, ?_, ?_, ?_⟩
  · intro s hp
    simp [cadastrar_paciente, hnew, hp]
  · intro s d hp
    simp [cadastrar_paciente, hnew, hp]
  · intro s d h
    unfold parseDataNascimento
    rw [strptimeDMY_of_spec s d h]
  · intro s d h
    unfold parseDataNascimento
    rw [strptimeDMY_of_specYMD_none s d h, strptimeYMD_of_spec s d h]

/-- C7 witness: a string in neither format is rejected without insert, a
`DD/MM/YYYY` string is stored as the date it denotes, and a `YYYY-MM-DD`
string parses to the date it denotes. -/
theorem C7_dob_parsing_witness :
    cadastrar_paciente [] "5511999990000" (some "Maria") (some "1990.03.05")
      = (.formatoInvalido, []) ∧
    cadastrar_paciente [] "5511999990000" (some "Maria") (some "05/03/1990")
      = (.sucesso "Maria", [⟨"Maria", "5511999990000", some ⟨1990, 3, 5⟩⟩]) ∧
    parseDataNascimento "1990-03-05" = some ⟨1990, 3, 5⟩ :=
  ⟨(C7_dob_parsing [] "5511999990000" "Maria" rfl).1 "1990.03.05" (by decide),
   (C7_dob_parsing [] "5511999990000" "Maria" rfl).2.1 "05/03/1990" ⟨1990, 3, 5⟩ (by decide),
   (C7_dob_parsing [] "5511999990000" "Maria" rfl).2.2.2 "1990-03-05" ⟨1990, 3, 5⟩ (by decide)⟩

/-- C7 counterexample: `"5/3/2025"` matches neither `DD/MM/YYYY` nor
`YYYY-MM-DD` (single-digit day and month), so the claim as stated
demands the invalid-date-format outcome; the code's `%d/%m/%Y` strptime
accepts one- or two-digit day/month groups, so it registers the patient
with the date 2025-03-05. -/
theorem C7_counterexample :
    specParseDMY "5/3/2025" = none ∧ specParseYMD "5/3/2025" = none ∧
    cadastrar_paciente [] "5511999990000" (some "Maria") (some "5/3/2025")
      = (.sucesso "Maria", [⟨"Maria", "5511999990000", some ⟨2025, 3, 5⟩⟩]) :=
  ⟨by decide, by decide, by decide⟩

/-! ## Claim C3 — booking timestamp validation -/

/-- A strict `YYYY-MM-DDTHH:MM:SS` string is accepted by the ISO parse
with the same denoted date-time. -/
theorem parseIso_of_spec (s : String) (dt : NaiveDT) (h : specParseYmdHms s = some dt) :
    parseIso s = some dt := by
  unfold specParseYmdHms at h
  split at h
  · rename_i y1 y2 y3 y4 m1 m2 d1 d2 h1 h2 i1 i2 e1 e2 heq
    split at h
    · rename_i hC
      obtain ⟨hy1, hy2, hy3, hy4, hm1, hm2, hd1, hd2, hh1, hh2, hi1, hi2, he1, he2,
        hvd, hvt⟩ := hC
      injection h with h
      subst h
      simp [parseIso, heq, parseIsoTime, hy1, hy2, hy3, hy4, hm1, hm2, hd1, hd2,
        hh1, hh2, hi1, hi2, he1, he2, hvd, hvt]
    · simp at h
  · simp at h

/-- C3 (amended): with a registered phone and a supplied procedure,
booking returns the invalid-format error iff the timestamp is not
parseable as a naive ISO-8601 date-time (`YYYY-MM-DD`, optionally
followed by one separator and `HH[:MM[:SS[.fff[fff]]]]`) — in
particular every strict `YYYY-MM-DDTHH:MM:SS` string parses — and on
parse success the appointment table gains exactly the UTC-normalized
Agendado row. -/
theorem C3_booking_datetime (pacientes : List Patient) (ags : List Appt)
    (telefone s procedimento : String) (pac : Patient)
    (hfind : pacientes.find? (fun p => p.telefone == telefone) = some pac) :
    ((agendar_consulta pacientes ags telefone (some s) (some procedimento)).1
        = .formatoInvalido ↔ parseIso s = none) ∧
    (∀ dt, parseIso s = some dt →
       agendar_consulta pacientes ags telefone (some s) (some procedimento)
         = (.confirmado pac.nome procedimento dt,
            ags ++ [⟨localToUtcMin dt, procedimento, "Agendado"⟩])) ∧
    (∀ dt, specParseYmdHms s = some dt → parseIso s = some dt) := by
  refine ⟨?_, ?_, fun dt h => parseIso_of_spec s dt h⟩
  · cases hp : parseIso s with
    | none => simp [agendar_consulta, hfind, hp]
    | some dt => simp [agendar_consulta, hfind, hp]
  · intro dt hp
    simp [agendar_consulta, hfind, hp]

/-- C3 witness: the registered-phone scenario with the well-formed
timestamp `2025-03-10T09:00:00`. -/
theorem C3_booking_datetime_witness :
    ((agendar_consulta [⟨"Maria Silva", "5511999990000", none⟩] [] "5511999990000"
        (some "2025-03-10T09:00:00") (some "Limpeza")).1 = .formatoInvalido
      ↔ parseIso "2025-03-10T09:00:00" = none) ∧
    (∀ dt, parseIso "2025-03-10T09:00:00" = some dt →
       agendar_consulta [⟨"Maria Silva", "5511999990000", none⟩] [] "5511999990000"
           (some "2025-03-10T09:00:00") (some "Limpeza")
         = (.confirmado "Maria Silva" "Limpeza" dt,
            [] ++ [⟨localToUtcMin dt, "Limpeza", "Agendado"⟩])) ∧
    (∀ dt, specParseYmdHms "2025-03-10T09:00:00" = some dt →
       parseIso "2025-03-10T09:00:00" = some dt) :=
  C3_booking_datetime [⟨"Maria Silva", "5511999990000", none⟩] [] "5511999990000"
    "2025-03-10T09:00:00" "Limpeza" ⟨"Maria Silva", "5511999990000", none⟩ rfl

/-- C3 counterexample: `"2025-03-10"` does not match
`YYYY-MM-DDTHH:MM:SS` (it has no time part), so the claim as stated
demands the invalid-format error; the code instead parses it (ISO
date-only form), returns a confirmation and inserts a row. -/
theorem C3_counterexample :
    specParseYmdHms "2025-03-10" = none ∧
    (agendar_consulta [⟨"Maria Silva", "5511999990000", none⟩] [] "5511999990000"
        (some "2025-03-10") (some "Limpeza")).1
      = .confirmado "Maria Silva" "Limpeza" ⟨2025, 3, 10, 0, 0, 0⟩ ∧
    (agendar_consulta [⟨"Maria Silva", "5511999990000", none⟩] [] "5511999990000"
        (some "2025-03-10") (some "Limpeza")).2.length = 1 :=
  ⟨by decide, by decide, by decide⟩

/-! ## Claim C2 — the `consultar_meus_agendamentos` action -/

/-- C2 (amended): the action router has no `consultar_meus_agendamentos`
branch; a decision carrying that action falls through to the
unrecognized-action case, producing the generic clarification reply and
leaving both tables untouched — the appointment ledger is never read. -/
theorem C2_meus_agendamentos_dispatch (st : ChatState) (hoje : Int)
    (ia : List Msg → IAResp) (telefone mensagem : String) (historico : List Msg)
    (hact : (ia (montarMensagens st.pacientes hoje telefone mensagem historico)).action
      = some "consultar_meus_agendamentos") :
    (processar_chat_logic st hoje ia telefone mensagem historico).reply = .naoEntendi ∧
    (processar_chat_logic st hoje ia telefone mensagem historico).state = st ∧
    renderReply hoje .naoEntendi = "Não entendi a ação solicitada. Por favor, reformule." := by
  refine ⟨?_, ?_, rfl⟩ <;>
    simp [processar_chat_logic, despachar, hact]

/-- C2 witness: a concrete `consultar_meus_agendamentos` decision. -/
theorem C2_meus_agendamentos_dispatch_witness :
    (processar_chat_logic ⟨[⟨"Maria Silva", "5511999990000", none⟩], []⟩ 739320
        (fun _ => ⟨some "consultar_meus_agendamentos", IAData.vazio⟩)
        "5511999990000" "Quais são meus agendamentos?" []).reply = .naoEntendi ∧
    (processar_chat_logic ⟨[⟨"Maria Silva", "5511999990000", none⟩], []⟩ 739320
        (fun _ => ⟨some "consultar_meus_agendamentos", IAData.vazio⟩)
        "5511999990000" "Quais são meus agendamentos?" []).state
      = ⟨[⟨"Maria Silva", "5511999990000", none⟩], []⟩ ∧
    renderReply 739320 .naoEntendi = "Não entendi a ação solicitada. Por favor, reformule." :=
  C2_meus_agendamentos_dispatch ⟨[⟨"Maria Silva", "5511999990000", none⟩], []⟩ 739320
    (fun _ => ⟨some "consultar_meus_agendamentos", IAData.vazio⟩)
    "5511999990000" "Quais são meus agendamentos?" [] rfl

/-- C2 counterexample: with one *future Scheduled appointment* on the
ledger and with an empty ledger alike, the turn replies the identical
generic clarification text — it neither lists the appointments nor
produces a distinct no-upcoming-appointments message, contradicting the
claimed dispatch behaviour. -/
theorem C2_counterexample :
    (processar_chat_logic ⟨[⟨"Maria Silva", "5511999990000", none⟩],
        [⟨(739320 - 1) * 1440 + 540 + 180, "Limpeza", "Agendado"⟩]⟩ 739320
        (fun _ => ⟨some "consultar_meus_agendamentos", IAData.vazio⟩)
        "5511999990000" "Quais são meus agendamentos?" []).reply = .naoEntendi ∧
    (processar_chat_logic ⟨[⟨"Maria Silva", "5511999990000", none⟩], []⟩ 739320
        (fun _ => ⟨some "consultar_meus_agendamentos", IAData.vazio⟩)
        "5511999990000" "Quais são meus agendamentos?" []).reply = .naoEntendi := by
  constructor
  · rfl
  · rfl

/-! ## Claim C8 — snoozed conversations drop the message -/

/-- C8: an inbound (not self-sent) message from a phone whose record has
a future `snoozed_until` is dropped: every table unchanged, no outbound
send, orchestrator not invoked. -/
theorem C8_snooze_drop (conversas : List ConvRecord) (st : ChatState)
    (now hoje : Int) (ia : List Msg → IAResp) (audioOk : Bool)
    (transcricao : Option String) (tel : String) (txt au : Option String)
    (r : ConvRecord) (t : Int)
    (htel : ¬ tel = "")
    (hfind : conversas.find? (fun c => c.telefone == tel) = some r)
    (hsnooze : r.snoozedUntil = some t) (hfut : now < t) :
    receber_mensagem_zapi conversas st now hoje ia audioOk transcricao
        ⟨some tel, false, txt, au⟩
      = ⟨conversas, st, none, false⟩ := by
  cases hc : extrairConteudo ⟨some tel, false, txt, au⟩ audioOk transcricao with
  | none => simp [receber_mensagem_zapi, htel, hc]
  | some conteudo =>
    simp [receber_mensagem_zapi, htel, hc, snoozeAtivo, hfind, hsnooze, hfut]

/-- C8 witness: the spec scenario — `snoozed_until` ten minutes in the
future (2025-03-10, 12:00 local). -/
theorem C8_snooze_drop_witness :
    receber_mensagem_zapi [⟨"5511999990000", [], 1064620200, some 1064620270⟩] ⟨[], []⟩
        1064620260 739320 (fun _ => ⟨some "responder", IAData.vazio⟩) false none
        ⟨some "5511999990000", false, some "Oi", none⟩
      = ⟨[⟨"5511999990000", [], 1064620200, some 1064620270⟩], ⟨[], []⟩, none, false⟩ :=
  C8_snooze_drop [⟨"5511999990000", [], 1064620200, some 1064620270⟩] ⟨[], []⟩
    1064620260 739320 (fun _ => ⟨some "responder", IAData.vazio⟩) false none
    "5511999990000" (some "Oi") none ⟨"5511999990000", [], 1064620200, some 1064620270⟩
    1064620270 (by decide) rfl rfl (by decide)

/-! ## Claim C10 — a processed turn erases the snooze -/

/-- C10: when a message from a phone with an existing record is
processed to completion (phone present, content extracted, snooze not
active), the updated record for that phone carries `snoozed_until =
null` and `last_updated_at = now` — any expired snooze deadline is
erased. -/
theorem C10_snooze_reset (conversas : List ConvRecord) (st : ChatState)
    (now hoje : Int) (ia : List Msg → IAResp) (audioOk : Bool)
    (transcricao : Option String) (tel : String) (txt au : Option String)
    (r : ConvRecord) (conteudo : String)
    (htel : ¬ tel = "")
    (hcont : extrairConteudo ⟨some tel, false, txt, au⟩ audioOk transcricao = some conteudo)
    (hfind : conversas.find? (fun c => c.telefone == tel) = some r)
    (hsn : snoozeAtivo (some r) now = false) :
    ∀ c ∈ (receber_mensagem_zapi conversas st now hoje ia audioOk transcricao
        ⟨some tel, false, txt, au⟩).conversas,
      c.telefone = tel → c.snoozedUntil = none ∧ c.lastUpdatedAt = now := by
  intro c hc hctel
  simp only [receber_mensagem_zapi, htel, hcont, hfind, hsn, if_false, Bool.false_eq_true,
    ite_false, List.mem_map] at hc
  obtain ⟨c0, hc0, hceq⟩ := hc
  cases hbt : c0.telefone == tel with
  | true =>
    rw [hbt] at hceq
    simp only [if_true] at hceq
    rw [← hceq]
    exact ⟨rfl, rfl⟩
  | false =>
    rw [hbt] at hceq
    simp only [Bool.false_eq_true, if_false] at hceq
    subst hceq
    rw [hctel] at hbt
    simp at hbt

/-- C10 witness: a record with an *expired* snooze deadline is updated
with `snoozed_until = null` (instantiated at the updated record itself). -/
theorem C10_snooze_reset_witness :
    ((receber_mensagem_zapi [⟨"5511999990000", [], 1064620200, some 1064620250⟩]
        ⟨[], []⟩ 1064620260 739320 (fun _ => ⟨some "responder", IAData.vazio⟩) false none
        ⟨some "5511999990000", false, some "Oi", none⟩).conversas.headD
      ⟨"", [], 0, none⟩).snoozedUntil = none ∧
    ((receber_mensagem_zapi [⟨"5511999990000", [], 1064620200, some 1064620250⟩]
        ⟨[], []⟩ 1064620260 739320 (fun _ => ⟨some "responder", IAData.vazio⟩) false none
        ⟨some "5511999990000", false, some "Oi", none⟩).conversas.headD
      ⟨"", [], 0, none⟩).lastUpdatedAt = 1064620260 :=
  C10_snooze_reset [⟨"5511999990000", [], 1064620200, some 1064620250⟩] ⟨[], []⟩
    1064620260 739320 (fun _ => ⟨some "responder", IAData.vazio⟩) false none
    "5511999990000" (some "Oi") none ⟨"5511999990000", [], 1064620200, some 1064620250⟩
    "Oi" (by decide) rfl rfl (by decide)
    ((receber_mensagem_zapi [⟨"5511999990000", [], 1064620200, some 1064620250⟩]
        ⟨[], []⟩ 1064620260 739320 (fun _ => ⟨some "responder", IAData.vazio⟩) false none
        ⟨some "5511999990000", false, some "Oi", none⟩).conversas.headD ⟨"", [], 0, none⟩)
    (by decide) (by decide)

/-! ## Claim C9 — the persisted transcript -/

theorem lastN_length_le (n : Nat) (xs : List Msg) : (lastN n xs).length ≤ n := by
  simp only [lastN, List.length_drop]
  omega

theorem lastN_suffix (n : Nat) (xs : List Msg) : lastN n xs <:+ xs :=
  List.drop_suffix _ _

/-- C9 (amended): whenever a turn is processed to completion, the
transcript persisted for the phone is the *entire model-input message
list* (system turn, first-contact tool turns if any, prior turns, new
user turn) with the assistant decision entry and the assistant reply
entry appended, truncated to the most recent 20 entries — so it is a
suffix of that list and holds at most 20 entries. -/
theorem C9_transcript_bound (conversas : List ConvRecord) (st : ChatState)
    (now hoje : Int) (ia : List Msg → IAResp) (audioOk : Bool)
    (transcricao : Option String) (tel : String) (txt au : Option String)
    (conteudo : String)
    (htel : ¬ tel = "")
    (hcont : extrairConteudo ⟨some tel, false, txt, au⟩ audioOk transcricao = some conteudo)
    (hsn : snoozeAtivo (conversas.find? (fun c => c.telefone == tel)) now = false) :
    ∀ c ∈ (receber_mensagem_zapi conversas st now hoje ia audioOk transcricao
        ⟨some tel, false, txt, au⟩).conversas,
      c.telefone = tel →
        c.historico = lastN 20 (transcriptCompleto hoje (processar_chat_logic st hoje ia tel
          conteudo (recuperarHistorico (conversas.find? (fun x => x.telefone == tel)) now))) ∧
        c.historico.length ≤ 20 ∧
        c.historico <:+ transcriptCompleto hoje (processar_chat_logic st hoje ia tel
          conteudo (recuperarHistorico (conversas.find? (fun x => x.telefone == tel)) now)) := by
  intro c hc hctel
  cases hfind : conversas.find? (fun x => x.telefone == tel) with
  | some r =>
    rw [hfind] at hsn
    simp only [receber_mensagem_zapi, htel, hcont, hfind, hsn, if_false, Bool.false_eq_true,
      ite_false, List.mem_map] at hc
    obtain ⟨c0, hc0, hceq⟩ := hc
    cases hbt : c0.telefone == tel with
    | true =>
      rw [hbt] at hceq
      simp only [if_true] at hceq
      rw [← hceq]
      exact ⟨rfl, lastN_length_le 20 _, lastN_suffix 20 _⟩
    | false =>
      rw [hbt] at hceq
      simp only [Bool.false_eq_true, if_false] at hceq
      subst hceq
      rw [hctel] at hbt
      simp at hbt
  | none =>
    rw [hfind] at hsn
    simp only [receber_mensagem_zapi, htel, hcont, hfind, hsn, if_false, Bool.false_eq_true,
      ite_false, List.mem_append, List.mem_singleton] at hc
    rcases hc with hc | hc
    · exfalso
      have := List.find?_eq_none.mp hfind c hc
      rw [hctel] at this
      simp at this
    · subst hc
      exact ⟨rfl, lastN_length_le 20 _, lastN_suffix 20 _⟩

/-- C9 witness: a first-contact text turn persists the truncated
transcript (instantiated at the inserted record itself). -/
theorem C9_transcript_bound_witness :
    ((receber_mensagem_zapi [] ⟨[], []⟩ 1064620260 739320
        (fun _ => ⟨some "responder", ⟨some "Olá!", none, none, none, none, none⟩⟩) false none
        ⟨some "5511999990000", false, some "Oi", none⟩).conversas.headD
      ⟨"", [], 0, none⟩).historico
      = lastN 20 (transcriptCompleto 739320 (processar_chat_logic ⟨[], []⟩ 739320
          (fun _ => ⟨some "responder", ⟨some "Olá!", none, none, none, none, none⟩⟩)
          "5511999990000" "Oi"
          (recuperarHistorico (List.find? (fun x => x.telefone == "5511999990000") []) 1064620260))) ∧
    ((receber_mensagem_zapi [] ⟨[], []⟩ 1064620260 739320
        (fun _ => ⟨some "responder", ⟨some "Olá!", none, none, none, none, none⟩⟩) false none
        ⟨some "5511999990000", false, some "Oi", none⟩).conversas.headD
      ⟨"", [], 0, none⟩).historico.length ≤ 20 ∧
    ((receber_mensagem_zapi [] ⟨[], []⟩ 1064620260 739320
        (fun _ => ⟨some "responder", ⟨some "Olá!", none, none, none, none, none⟩⟩) false none
        ⟨some "5511999990000", false, some "Oi", none⟩).conversas.headD
      ⟨"", [], 0, none⟩).historico
      <:+ transcriptCompleto 739320 (processar_chat_logic ⟨[], []⟩ 739320
          (fun _ => ⟨some "responder", ⟨some "Olá!", none, none, none, none, none⟩⟩)
          "5511999990000" "Oi"
          (recuperarHistorico (List.find? (fun x => x.telefone == "5511999990000") []) 1064620260)) :=
  C9_transcript_bound [] ⟨[], []⟩ 1064620260 739320
    (fun _ => ⟨some "responder", ⟨some "Olá!", none, none, none, none, none⟩⟩) false none
    "5511999990000" (some "Oi") none "Oi" (by decide) rfl rfl
    ((receber_mensagem_zapi [] ⟨[], []⟩ 1064620260 739320
        (fun _ => ⟨some "responder", ⟨some "Olá!", none, none, none, none, none⟩⟩) false none
        ⟨some "5511999990000", false, some "Oi", none⟩).conversas.headD ⟨"", [], 0, none⟩)
    (by decide) (by decide)

/-- C9 counterexample: on a first-contact turn the persisted transcript
has six entries — system turn, the injected tool-call pair, the user
turn and *two* assistant turns (decision and reply) — not the two
entries "prior turns + user turn + assistant turn" the claim describes,
and its head is the system turn. -/
theorem C9_counterexample :
    ((receber_mensagem_zapi [] ⟨[], []⟩ 1064620260 739320
        (fun _ => ⟨some "responder", ⟨some "Olá!", none, none, none, none, none⟩⟩) false none
        ⟨some "5511999990000", false, some "Oi", none⟩).conversas.map
      (fun c => c.historico.length)) = [6] ∧
    specTranscript [] "Oi" "Olá!" = [⟨"user", some "Oi"⟩, ⟨"assistant", some "Olá!"⟩] ∧
    ((receber_mensagem_zapi [] ⟨[], []⟩ 1064620260 739320
        (fun _ => ⟨some "responder", ⟨some "Olá!", none, none, none, none, none⟩⟩) false none
        ⟨some "5511999990000", false, some "Oi", none⟩).conversas.map
      (fun c => c.historico)) ≠ [specTranscript [] "Oi" "Olá!"] :=
  ⟨by decide, by decide, by decide⟩

end Odonto
